import Mathlib

/-!
Verification development for the cmg-training-builder generation pipeline.

The definitions below are a shallow embedding of the pipeline orchestrator in
src/App.tsx, the generation client in src/services/openai.ts, the ingestion
utilities in src/utils/fileProcessor.ts, and the document-type configuration in
src/config/documentOptions.ts.  Asynchronous network calls are modelled by
oracle parameters giving each call's settled outcome; JavaScript's
Promise.all / Promise.allSettled order guarantees are modelled explicitly.
-/

/-- The closed enumeration of document type tags (src/types + documentOptions). -/
inductive DocumentType
  | releaseNotes
  | trainingGuide
  | email
  | quickRef
  | faq
  | manual
  | techGuide
deriving DecidableEq, Repr, Inhabited

/-- The string id of a document type, as written in the source configuration. -/
def DocumentType.idStr : DocumentType → String
  | .releaseNotes => "release-notes"
  | .trainingGuide => "training-guide"
  | .email => "email"
  | .quickRef => "quick-ref"
  | .faq => "faq"
  | .manual => "manual"
  | .techGuide => "tech-guide"

/-- One entry of the DOCUMENT_OPTIONS configuration table. -/
structure DocumentOption where
  id : DocumentType
  label : String
  description : String
  prompt : String
deriving DecidableEq, Repr

/-- The configured document-type list (src/config/documentOptions.ts). -/
def DOCUMENT_OPTIONS : List DocumentOption := [
  ⟨.releaseNotes, "Release Notes", "Professional release notes for stakeholders",
    "Create comprehensive release notes"⟩,
  ⟨.trainingGuide, "Training Guide", "Step-by-step training documentation",
    "Create a detailed training guide"⟩,
  ⟨.email, "Email Announcement", "Ready-to-send email template",
    "Create an email announcement"⟩,
  ⟨.quickRef, "Quick Reference Card", "One-page cheat sheet",
    "Create a quick reference card"⟩,
  ⟨.faq, "FAQ Document", "Frequently asked questions and answers",
    "Create an FAQ document"⟩,
  ⟨.manual, "User Manual", "Comprehensive user documentation",
    "Create a user manual"⟩,
  ⟨.techGuide, "App Support Technical Guide", "Technical details for app support teams",
    "Create a technical support guide"⟩]

/-- Output format tag of a generated document. -/
inductive DocFormat
  | markdown
  | html
  | txt
deriving DecidableEq, Repr

/-- A generated document as held in the App's generatedDocs state. -/
structure GeneratedDoc where
  filename : String
  content : String
  type : DocumentType
  format : DocFormat
  generatedAt : Nat
  durationMs : Nat
deriving DecidableEq, Repr

/-- Per-type generation status as tracked in generationProgress. -/
inductive GenStatus
  | pending
  | processing
  | complete
deriving DecidableEq, Repr

/-- The App's wizard step enumeration. -/
inductive AppStep
  | upload
  | wizard
  | processing
  | preview
deriving DecidableEq, Repr

/-- The settled outcome of one generateTrainingDocument call in a batch:
either the generated content or the thrown error's message, plus the
timestamp and duration observed at settlement. -/
structure GenCall where
  outcome : Except String String
  generatedAt : Nat
  durationMs : Nat

/-- One element of the array produced by the parallel fan-out in
proceedWithGeneration (src/App.tsx lines 187-215): success keeps the content,
failure records an error message with an empty content string. -/
structure GenResult where
  type : DocumentType
  content : String
  error : Option String
  generatedAt : Nat
  durationMs : Nat
deriving DecidableEq, Repr

/-- Settlement of one per-type promise of the fan-out: on success the result
carries the content; on failure the catch records
`err.message || 'Generation failed'` and an empty content. -/
def settleOne (t : DocumentType) (c : GenCall) : GenResult :=
  match c.outcome with
  | .ok content =>
      { type := t, content := content, error := none,
        generatedAt := c.generatedAt, durationMs := c.durationMs }
  | .error msg =>
      { type := t, content := "",
        error := some (if msg = "" then "Generation failed" else msg),
        generatedAt := c.generatedAt, durationMs := c.durationMs }

/-- The array delivered by Promise.all over the fan-out of
`selected.map(async docType => ...)`: its i-th element is the settlement of the
call issued for the i-th selected type against the given source content.
The oracle `gen` gives the outcome of the call at each position. -/
def genResults (gen : Nat → DocumentType → String → GenCall) (src : String) :
    List DocumentType → Nat → List GenResult
  | [], _ => []
  | t :: ts, i => settleOne t (gen i t src) :: genResults gen src ts (i + 1)

/-- Conversion of one fan-out result to a GeneratedDoc
(src/App.tsx lines 218-230): filename from the option label with the raw type
id as fallback, and an error placeholder content when the call failed. -/
def toGeneratedDoc (r : GenResult) : GeneratedDoc :=
  let option := DOCUMENT_OPTIONS.find? (fun o => o.id = r.type)
  let label := match option with
    | some o => o.label
    | none => ""
  { filename := if label = "" then r.type.idStr else label,
    content := match r.error with
      | some e =>
          "# Error generating " ++
            (match option with
              | some o => o.label
              | none => "undefined") ++ "\n\n" ++ e
      | none => r.content,
    type := r.type,
    format := .markdown,
    generatedAt := r.generatedAt,
    durationMs := r.durationMs }

/-- The state proceedWithGeneration leaves behind once the batch settles. -/
structure GenerationPhase where
  step : AppStep
  docs : List GeneratedDoc
  selectedForDownload : List Nat
  progressMessage : String
deriving Repr

/-- proceedWithGeneration (src/App.tsx lines 166-242): fans out one call per
selected type, waits for all to settle, converts the results and moves to the
preview (review) step, selecting every document for download. -/
def proceedWithGeneration (selected : List DocumentType) (src : String)
    (gen : Nat → DocumentType → String → GenCall) : GenerationPhase :=
  let results := genResults gen src selected 0
  let docs := results.map toGeneratedDoc
  { step := .preview,
    docs := docs,
    selectedForDownload := List.range docs.length,
    progressMessage := "All documents generated successfully!" }

/-- A single Record-style status update: `prev => ({...prev, [t]: s})`. -/
def updateProgress (m : DocumentType → Option GenStatus) (t : DocumentType)
    (s : GenStatus) : DocumentType → Option GenStatus :=
  fun u => if u = t then some s else m u

/-- The map set just before the fan-out: every selected type marked processing. -/
def processingProgress (selected : List DocumentType) :
    DocumentType → Option GenStatus :=
  selected.foldl (fun m t => updateProgress m t .processing) (fun _ => none)

/-- The status map after the batch settles: each settling call marks its own
type complete, in whichever order the calls settle. -/
def finalProgress (selected settleOrder : List DocumentType) :
    DocumentType → Option GenStatus :=
  settleOrder.foldl (fun m t => updateProgress m t .complete)
    (processingProgress selected)

/-- Promise.all settlement model: an array of slots is filled as each promise
settles (in an arbitrary order of positions), each promise writing its own
value into its own slot. -/
def settleAll (calls : List GenResult) (order : List Nat) :
    List (Option GenResult) :=
  order.foldl (fun acc i => acc.set i calls[i]?) (List.replicate calls.length none)

/-- One clarifying question with its (possibly empty) user answer. -/
structure WizardQuestion where
  question : String
  answer : String
deriving DecidableEq, Repr

/-- Model of JavaScript String.prototype.trim: strip whitespace characters
from both ends of the string. -/
def jsTrim (s : String) : String :=
  String.mk (((s.data.dropWhile Char.isWhitespace).reverse.dropWhile
    Char.isWhitespace).reverse)

/-- The text appended for one answered question inside the Additional Context
section: `**${q.question}**\n${q.answer}\n\n`. -/
def pairText (q : WizardQuestion) : String :=
  "**" ++ q.question ++ "**\n" ++ q.answer ++ "\n\n"

/-- Concatenation of the per-question appended texts, in list order. -/
def pairsText : List WizardQuestion → String
  | [] => ""
  | q :: qs => pairText q ++ pairsText qs

/-- handleWizardContinue (src/App.tsx lines 255-268): keeps the questions whose
trimmed answer is non-empty and, when there is at least one, appends an
Additional Context section with the question/answer pairs to the retained
source content before generation. -/
def handleWizardContinue (sourceContent : String) (qs : List WizardQuestion) :
    String :=
  let answeredQuestions := qs.filter (fun q => !(jsTrim q.answer = ""))
  if answeredQuestions.length > 0 then
    answeredQuestions.foldl (fun acc q => acc ++ pairText q)
      (sourceContent ++ "\n\n## Additional Context\n\n")
  else sourceContent

/-- handleSkipWizard (src/App.tsx lines 250-253): proceeds with the retained
source content unmodified. -/
def handleSkipWizard (sourceContent : String) : String :=
  sourceContent

/-- handleRegenerateArtifact (src/App.tsx lines 417-450): regenerates the
document at one index against the retained source content; on success the
entry is replaced in place with new content, timestamp and duration, on any
failure the list is left untouched and a transient toast message is shown.
`gen` gives the settled outcome of a generateTrainingDocument call for a given
(type, source content) pair.  Returns the new documents list and the toast
message. -/
def handleRegenerateArtifact (sourceContent : String)
    (generatedDocs : List GeneratedDoc) (index : Nat)
    (gen : DocumentType → String → Except String String)
    (now dur : Nat) : List GeneratedDoc × String :=
  match generatedDocs[index]? with
  | none =>
      -- `generatedDocs[index]` is undefined and reading `.type` throws,
      -- which the surrounding catch turns into a failure toast.
      (generatedDocs, "Regeneration failed: " ++
        "Cannot read properties of undefined (reading 'type')")
  | some doc =>
      match gen doc.type sourceContent with
      | .ok newContent =>
          let updated := { doc with
            content := newContent
            generatedAt := now
            durationMs := dur }
          (generatedDocs.set index updated,
           "Document regenerated successfully!")
      | .error e => (generatedDocs, "Regeneration failed: " ++ e)

/-- getAlreadyGeneratedTypes (src/App.tsx lines 465-467). -/
def getAlreadyGeneratedTypes (generatedDocs : List GeneratedDoc) :
    List DocumentType :=
  generatedDocs.map (fun doc => doc.type)

/-- getAvailableTypes (src/App.tsx lines 469-472): the configured type list
minus the types already present in the generated documents. -/
def getAvailableTypes (generatedDocs : List GeneratedDoc) : List DocumentType :=
  (DOCUMENT_OPTIONS.map (fun opt => opt.id)).filter
    (fun id => !((getAlreadyGeneratedTypes generatedDocs).contains id))

/-- handleGenerateAdditional (src/App.tsx lines 474-548): returns unchanged on
an empty selection, otherwise fans out one call per additional type against the
retained source content and appends the converted results to the existing
list. -/
def handleGenerateAdditional (generatedDocs : List GeneratedDoc)
    (additionalOutputs : List DocumentType) (sourceContent : String)
    (gen : Nat → DocumentType → String → GenCall) : List GeneratedDoc :=
  if additionalOutputs.length = 0 then generatedDocs
  else
    generatedDocs ++
      (genResults gen sourceContent additionalOutputs 0).map toGeneratedDoc

/-- The settled outcome of the feature-categorization call. -/
inductive CategorizeOutcome
  | success (hasMultipleFeatures : Bool) (categorizedContent : String)
  | failure (msg : String)

/-- Modelled from the spec: the repository snapshot under src contains only
the call sites of `categorizeFeatures` (src/App.tsx line 131), not its
implementation in src/services/openai.ts.  Per the spec, it detects whether
multiple distinct features are present and may reorganize the content, and "if
categorization fails, fall back to using the original content unmodified". -/
def categorizeFeatures (content : String) : CategorizeOutcome → Bool × String
  | .success multi organized => (multi, organized)
  | .failure _ => (false, content)

/-- The orchestrator state left behind by handleGenerate before (or instead of)
the generation phase. -/
structure PreGenState where
  step : AppStep
  sourceContent : String
  wizardQuestions : List WizardQuestion
  docs : List GeneratedDoc
  error : Option String
deriving Repr

/-- handleGenerate (src/App.tsx lines 103-164), starting from the already
ingested combined content: runs feature categorization (modelled above),
retains the categorized content as the run's source content, then requests
clarifying questions (`qres` is that call's settled outcome; the
implementation of `generateClarifyingQuestions` is likewise absent from the
snapshot and per the spec returns a list of question strings or throws).  A
non-empty question list opens the wizard; an empty one proceeds straight to
generation; a throw from the questions call is caught, surfaces an error and
leaves the app on the upload step. -/
def handleGenerate (combinedContent : String)
    (selected : List DocumentType) (cat : CategorizeOutcome)
    (qres : Except String (List String))
    (gen : Nat → DocumentType → String → GenCall) : PreGenState :=
  let categorizedContent := (categorizeFeatures combinedContent cat).2
  match qres with
  | .error msg =>
      { step := .upload, sourceContent := categorizedContent,
        wizardQuestions := [], docs := [],
        error := some (if msg = "" then
          "Failed to analyze content. Please try again." else msg) }
  | .ok questions =>
      if questions.length > 0 then
        { step := .wizard, sourceContent := categorizedContent,
          wizardQuestions := questions.map (fun q => ⟨q, ""⟩),
          docs := [], error := none }
      else
        let g := proceedWithGeneration selected categorizedContent gen
        { step := g.step, sourceContent := categorizedContent,
          wizardQuestions := [], docs := g.docs, error := none }

/-- Model of JavaScript's `String.prototype.includes`: the pattern occurs in
the string iff it starts one of the string's suffixes. -/
def containsSubstr (s pat : String) : Bool :=
  s.data.tails.any (fun t => pat.data.isPrefixOf t)

/-- The error thrown by getApiKey (src/services/openai.ts lines 7-15). -/
def apiKeyErrorMsg : String :=
  "OpenAI API key not found. Please set VITE_OPENAI_API_KEY environment variable."

/-- The error rethrown by the client catch blocks when the caught message
mentions the API key. -/
def invalidKeyMsg : String :=
  "OpenAI API key is missing or invalid. Please check your environment variables."

/-- getApiKey (src/services/openai.ts lines 7-15): the env value is absent or
falsy (empty) exactly when the configuration error is thrown. -/
def getApiKey (env : Option String) : Except String String :=
  match env with
  | none => .error apiKeyErrorMsg
  | some k => if k = "" then .error apiKeyErrorMsg else .ok k

/-- The settled outcome of one chat.completions.create request: a rejection
with an error message, or a response whose body may or may not contain
content (`response.choices[0]?.message?.content`; absent or empty content is
falsy). -/
inductive NetResponse
  | failure (msg : String)
  | success (content : Option String)

/-- The result of one generation-client operation together with whether a
network request was actually issued before settling. -/
structure ClientCallResult where
  result : Except String String
  requestIssued : Bool
deriving Repr

/-- generateTrainingDocument (src/services/openai.ts lines 659-695): creating
the client throws the configuration error when the key is absent, before any
request; an issued request may fail or return a body without content, both of
which the catch rewraps (a message mentioning the API key becomes the
invalid-key error). -/
def generateTrainingDocument (docType : DocumentType) (env : Option String)
    (net : NetResponse) : ClientCallResult :=
  match getApiKey env with
  | .error msg =>
      { result := .error (if containsSubstr msg "API key" then invalidKeyMsg
          else "Failed to generate " ++ docType.idStr ++ ": " ++ msg),
        requestIssued := false }
  | .ok _ =>
      match net with
      | .failure e =>
          { result := .error (if containsSubstr e "API key" then invalidKeyMsg
              else "Failed to generate " ++ docType.idStr ++ ": " ++ e),
            requestIssued := true }
      | .success content =>
          match content with
          | none =>
              { result := .error ("Failed to generate " ++ docType.idStr ++
                  ": No content generated from OpenAI"),
                requestIssued := true }
          | some c =>
              if c = "" then
                { result := .error ("Failed to generate " ++ docType.idStr ++
                    ": No content generated from OpenAI"),
                  requestIssued := true }
              else { result := .ok c, requestIssued := true }

/-- enhanceTextWithAI (src/services/openai.ts lines 730-792): same
client-creation gate and catch structure with its own messages. -/
def enhanceTextWithAI (env : Option String) (net : NetResponse) :
    ClientCallResult :=
  match getApiKey env with
  | .error msg =>
      { result := .error (if containsSubstr msg "API key" then invalidKeyMsg
          else "Failed to enhance content: " ++ msg),
        requestIssued := false }
  | .ok _ =>
      match net with
      | .failure e =>
          { result := .error (if containsSubstr e "API key" then invalidKeyMsg
              else "Failed to enhance content: " ++ e),
            requestIssued := true }
      | .success content =>
          match content with
          | none =>
              { result := .error ("Failed to enhance content: " ++
                  "No content generated from AI enhancement"),
                requestIssued := true }
          | some c =>
              if c = "" then
                { result := .error ("Failed to enhance content: " ++
                    "No content generated from AI enhancement"),
                  requestIssued := true }
              else { result := .ok c, requestIssued := true }

/-- cleanupContentWithAI (src/services/openai.ts, cleanup variant): same
client-creation gate and catch structure with its own messages. -/
def cleanupContentWithAI (env : Option String) (net : NetResponse) :
    ClientCallResult :=
  match getApiKey env with
  | .error msg =>
      { result := .error (if containsSubstr msg "API key" then invalidKeyMsg
          else "Failed to cleanup content: " ++ msg),
        requestIssued := false }
  | .ok _ =>
      match net with
      | .failure e =>
          { result := .error (if containsSubstr e "API key" then invalidKeyMsg
              else "Failed to cleanup content: " ++ e),
            requestIssued := true }
      | .success content =>
          match content with
          | none =>
              { result := .error ("Failed to cleanup content: " ++
                  "No content generated from AI cleanup"),
                requestIssued := true }
          | some c =>
              if c = "" then
                { result := .error ("Failed to cleanup content: " ++
                    "No content generated from AI cleanup"),
                  requestIssued := true }
              else { result := .ok c, requestIssued := true }

/-- An uploaded file as the ingestor sees it: name, declared MIME type (empty
when the browser supplies none), size, and the outcome a FileReader text read
would produce for it. -/
structure UploadedFile where
  name : String
  mimeType : String
  size : Nat
  readResult : Except String String
deriving Repr

/-- Extracted per-file content record (src/types FileContent). -/
structure FileContent where
  filename : String
  content : String
  type : String
  size : Nat
deriving DecidableEq, Repr

/-- The extension-to-MIME table of getFileTypeFromName
(src/utils/fileProcessor.ts lines 78-92). -/
def extTypeMap (ext : String) : Option String :=
  if ext = "txt" then some "text/plain"
  else if ext = "pdf" then some "application/pdf"
  else if ext = "doc" then some "application/msword"
  else if ext = "docx" then
    some "application/vnd.openxmlformats-officedocument.wordprocessingml.document"
  else if ext = "xls" then some "application/vnd.ms-excel"
  else if ext = "xlsx" then
    some "application/vnd.openxmlformats-officedocument.spreadsheetml.sheet"
  else if ext = "png" then some "image/png"
  else if ext = "jpg" then some "image/jpeg"
  else if ext = "jpeg" then some "image/jpeg"
  else none

/-- getFileTypeFromName (src/utils/fileProcessor.ts): last dot-separated piece
of the filename, lowercased, looked up in the table with an octet-stream
fallback. -/
def getFileTypeFromName (filename : String) : String :=
  (extTypeMap (((filename.splitOn ".").getLastD "").toLower)).getD
    "application/octet-stream"

/-- `file.type || getFileTypeFromName(file.name)`. -/
def fileTypeOf (file : UploadedFile) : String :=
  if file.mimeType = "" then getFileTypeFromName file.name else file.mimeType

/-- readTextFile (src/utils/fileProcessor.ts lines 63-73): resolves with the
read text or rejects on a reader error. -/
def readTextFile (file : UploadedFile) : Except String String :=
  file.readResult

/-- processFile (src/utils/fileProcessor.ts lines 6-58): classify by MIME type
or extension; only text-like files are actually read, the non-text categories
produce deterministic placeholder stubs; a failed read is caught and degraded
to an error-stub record for that file. -/
def processFile (file : UploadedFile) : FileContent :=
  let fileType := fileTypeOf file
  let contentE : Except String String :=
    if containsSubstr fileType "text" || file.name.endsWith ".txt" then
      readTextFile file
    else if containsSubstr fileType "pdf" || file.name.endsWith ".pdf" then
      .ok ("[PDF Document: " ++ file.name ++ "]\n\nNote: PDF text extraction requires pdf.js library. For this MVP, please copy and paste the PDF content or upload as .txt file.")
    else if containsSubstr fileType "word" || containsSubstr fileType "document" ||
        file.name.endsWith ".docx" || file.name.endsWith ".doc" then
      .ok ("[Word Document: " ++ file.name ++ "]\n\nNote: Word document extraction requires mammoth.js library. For this MVP, please copy and paste the document content or upload as .txt file.")
    else if containsSubstr fileType "spreadsheet" || containsSubstr fileType "excel" ||
        file.name.endsWith ".xlsx" || file.name.endsWith ".xls" then
      .ok ("[Excel Spreadsheet: " ++ file.name ++ "]\n\nNote: Excel extraction requires xlsx library. For this MVP, please copy and paste the spreadsheet content or upload as .txt/.csv file.")
    else if containsSubstr fileType "image" then
      .ok ("[Image: " ++ file.name ++ "]\n\nNote: OCR for images requires additional libraries. Please provide a text description of the image content.")
    else readTextFile file
  match contentE with
  | .ok content =>
      { filename := file.name, content := content, type := fileType,
        size := file.size }
  | .error _ =>
      { filename := file.name, content := "Error reading file: " ++ file.name,
        type := fileType, size := file.size }

/-- processFiles (src/utils/fileProcessor.ts lines 97-111): processes every
file and joins the per-file contents with filename-framed delimiters. -/
def processFiles (files : List UploadedFile) : String × List FileContent :=
  let fileContents := files.map processFile
  let combinedContent := String.intercalate "\n---\n\n"
    (fileContents.map (fun fc =>
      "=== " ++ fc.filename ++ " ===\n\n" ++ fc.content ++ "\n\n"))
  (combinedContent, fileContents)

/-- A concrete always-succeeding generation oracle, used by witnesses. -/
def genOk : Nat → DocumentType → String → GenCall :=
  fun _ _ _ => ⟨.ok "generated body", 10, 3⟩

/-- A concrete oracle whose second call (position 1) fails, used by witnesses. -/
def genFailAt1 : Nat → DocumentType → String → GenCall :=
  fun i _ _ => if i = 1 then ⟨.error "network error", 20, 4⟩
    else ⟨.ok "generated body", 10, 3⟩

/-- A concrete generated document, used by witnesses. -/
def sampleDoc (t : DocumentType) (c : String) : GeneratedDoc :=
  { filename := c, content := c, type := t, format := .markdown,
    generatedAt := 1, durationMs := 2 }

/-- A concrete uploaded text file whose read fails, used by witnesses. -/
def sampleFile : UploadedFile :=
  { name := "notes.txt", mimeType := "text/plain", size := 3,
    readResult := .error "boom" }


/-- One element of the Promise.allSettled aggregation of
generateMultipleDocuments (src/services/openai.ts lines 700-725). -/
structure MultiDocResult where
  type : DocumentType
  content : String
  error : Option String
deriving DecidableEq, Repr

/-- Aggregation of one settled generateTrainingDocument call inside
generateMultipleDocuments: a fulfilled call keeps its content, a rejected one
records `result.reason?.message || 'Unknown error'` with empty content. -/
def settleMultiDoc (t : DocumentType) (env : Option String)
    (net : NetResponse) : MultiDocResult :=
  match (generateTrainingDocument t env net).result with
  | .ok c => { type := t, content := c, error := none }
  | .error e =>
      { type := t, content := "",
        error := some (if e = "" then "Unknown error" else e) }

/-- generateMultipleDocuments (src/services/openai.ts lines 700-725): one
call per requested type, settled independently; `nets` gives each parallel
request's network outcome by position. -/
def generateMultipleDocuments (env : Option String)
    (nets : Nat → NetResponse) : List DocumentType → Nat → List MultiDocResult
  | [], _ => []
  | t :: ts, i => settleMultiDoc t env (nets i) ::
      generateMultipleDocuments env nets ts (i + 1)

/-! ### Helper lemmas -/

theorem settleOne_type (t : DocumentType) (c : GenCall) :
    (settleOne t c).type = t := by
  unfold settleOne
  cases c.outcome <;> rfl

theorem toGeneratedDoc_type (r : GenResult) :
    (toGeneratedDoc r).type = r.type := rfl

theorem genResults_length (gen : Nat → DocumentType → String → GenCall)
    (src : String) (l : List DocumentType) :
    ∀ i, (genResults gen src l i).length = l.length := by
  induction l with
  | nil => intro i; rfl
  | cons t ts ih => intro i; simp [genResults, ih]

theorem genResults_map_type (gen : Nat → DocumentType → String → GenCall)
    (src : String) (l : List DocumentType) :
    ∀ i, (genResults gen src l i).map GenResult.type = l := by
  induction l with
  | nil => intro i; rfl
  | cons t ts ih => intro i; simp [genResults, ih, settleOne_type]

theorem genResults_getElem? (gen : Nat → DocumentType → String → GenCall)
    (src : String) (l : List DocumentType) :
    ∀ i j, (genResults gen src l i)[j]? =
      (l[j]?).map (fun t => settleOne t (gen (i + j) t src)) := by
  induction l with
  | nil => intro i j; simp [genResults]
  | cons t ts ih =>
      intro i j
      cases j with
      | zero => simp [genResults]
      | succ j =>
          simp only [genResults, List.getElem?_cons_succ, ih]
          have : i + 1 + j = i + (j + 1) := by omega
          rw [this]

theorem foldl_updateProgress (s : GenStatus) (l : List DocumentType) :
    ∀ (m : DocumentType → Option GenStatus) (u : DocumentType),
      (l.foldl (fun m t => updateProgress m t s) m) u =
        if u ∈ l then some s else m u := by
  induction l with
  | nil => intro m u; simp
  | cons t ts ih =>
      intro m u
      simp only [List.foldl_cons, ih, List.mem_cons]
      by_cases h1 : u ∈ ts
      · simp [h1]
      · by_cases h2 : u = t <;> simp [h1, h2, updateProgress]

theorem finalProgress_eq (selected order : List DocumentType)
    (u : DocumentType) :
    finalProgress selected order u =
      if u ∈ order then some .complete
      else if u ∈ selected then some .processing else none := by
  unfold finalProgress processingProgress
  rw [foldl_updateProgress, foldl_updateProgress]

theorem settleAll_foldl_getElem? (calls : List GenResult) (order : List Nat) :
    ∀ (acc : List (Option GenResult)) (j : Nat),
      (order.foldl (fun acc i => acc.set i calls[i]?) acc)[j]? =
        if j ∈ order ∧ j < acc.length then some calls[j]? else acc[j]? := by
  induction order with
  | nil => intro acc j; simp
  | cons i order ih =>
      intro acc j
      simp only [List.foldl_cons, ih, List.length_set, List.mem_cons]
      by_cases hjo : j ∈ order
      · by_cases hjl : j < acc.length
        · simp [hjo, hjl]
        · simp only [hjo, hjl, and_false, if_false, or_true, true_and]
          rw [List.getElem?_eq_none (by simpa using Nat.le_of_not_lt hjl),
            List.getElem?_eq_none (by simp [Nat.le_of_not_lt hjl])]
      · by_cases hji : j = i
        · subst hji
          by_cases hjl : j < acc.length
          · simp [hjo, hjl, List.getElem?_set_self hjl]
          · simp only [hjo, or_false, hjl, and_false, if_false, true_or,
              true_and]
            rw [List.getElem?_eq_none (by simpa using Nat.le_of_not_lt hjl),
              List.getElem?_eq_none (by simp [Nat.le_of_not_lt hjl])]
        · simp [hjo, hji, List.getElem?_set_ne (fun h => hji h.symm)]

theorem settleAll_of_perm (calls : List GenResult) (order : List Nat)
    (hperm : order.Perm (List.range calls.length)) :
    settleAll calls order = calls.map some := by
  apply List.ext_getElem?_iff.mpr
  intro j
  unfold settleAll
  rw [settleAll_foldl_getElem?]
  by_cases hj : j < calls.length
  · have hmem : j ∈ order := by
      rw [hperm.mem_iff]
      simpa using hj
    simp only [hmem, List.length_replicate, hj, and_self, if_true]
    have hc : calls[j]? = some calls[j] := List.getElem?_eq_getElem hj
    rw [hc, List.getElem?_map, hc]
    rfl
  · have hmem : j ∉ order := by
      rw [hperm.mem_iff]
      simpa using hj
    simp only [hmem, false_and, if_false]
    rw [List.getElem?_eq_none (by simpa using Nat.le_of_not_lt hj),
      List.getElem?_eq_none (by simpa using Nat.le_of_not_lt hj)]

theorem foldl_pairText (l : List WizardQuestion) :
    ∀ init : String,
      l.foldl (fun acc q => acc ++ pairText q) init = init ++ pairsText l := by
  induction l with
  | nil => intro init; simp [pairsText]
  | cons q qs ih =>
      intro init
      simp only [List.foldl_cons, ih, pairsText]
      rw [String.append_assoc]

theorem generateMultipleDocuments_getElem? (env : Option String)
    (nets : Nat → NetResponse) (l : List DocumentType) :
    ∀ i j, (generateMultipleDocuments env nets l i)[j]? =
      (l[j]?).map (fun t => settleMultiDoc t env (nets (i + j))) := by
  induction l with
  | nil => intro i j; simp [generateMultipleDocuments]
  | cons t ts ih =>
      intro i j
      cases j with
      | zero => simp [generateMultipleDocuments]
      | succ j =>
          simp only [generateMultipleDocuments, List.getElem?_cons_succ, ih]
          have : i + 1 + j = i + (j + 1) := by omega
          rw [this]

/-! ### Claim theorems -/

/-- C1: For every run of a Generating phase with a selected list of N document
types, the resulting documents list contains exactly N entries and their type
tags are, position by position, the N selected types (so the multisets agree:
no drops, no duplicates), regardless of whether each individual generation
call succeeds or fails; and once the batch settles (in any settlement order),
the set of types whose status is complete equals the set of types with an
entry in the results. -/
theorem generatingPhaseIsExhaustive (selected order : List DocumentType)
    (src : String) (gen : Nat → DocumentType → String → GenCall)
    (hperm : order.Perm selected) :
    (proceedWithGeneration selected src gen).docs.length = selected.length ∧
    (proceedWithGeneration selected src gen).docs.map GeneratedDoc.type =
      selected ∧
    ∀ t, finalProgress selected order t = some .complete ↔
      t ∈ (proceedWithGeneration selected src gen).docs.map
        GeneratedDoc.type := by
  have hmap : (proceedWithGeneration selected src gen).docs.map
      GeneratedDoc.type = selected := by
    show ((genResults gen src selected 0).map toGeneratedDoc).map
      GeneratedDoc.type = selected
    rw [List.map_map]
    have hc : GeneratedDoc.type ∘ toGeneratedDoc = GenResult.type :=
      funext toGeneratedDoc_type
    rw [hc, genResults_map_type]
  refine ⟨?_, hmap, ?_⟩
  · show ((genResults gen src selected 0).map toGeneratedDoc).length =
      selected.length
    rw [List.length_map, genResults_length]
  · intro t
    rw [hmap, finalProgress_eq]
    by_cases ho : t ∈ order
    · simp [ho, hperm.mem_iff.mp ho]
    · have hs : t ∉ selected := fun h => ho (hperm.mem_iff.mpr h)
      simp [ho, hs]

theorem generatingPhaseIsExhaustive_witness :
    ([DocumentType.email, DocumentType.faq] : List DocumentType).Perm
        [DocumentType.faq, DocumentType.email] ∧
    ((proceedWithGeneration [DocumentType.faq, DocumentType.email] "S"
        genFailAt1).docs.length =
      ([DocumentType.faq, DocumentType.email] : List DocumentType).length ∧
    (proceedWithGeneration [DocumentType.faq, DocumentType.email] "S"
        genFailAt1).docs.map GeneratedDoc.type =
      [DocumentType.faq, DocumentType.email] ∧
    ∀ t, finalProgress [DocumentType.faq, DocumentType.email]
        [DocumentType.email, DocumentType.faq] t = some .complete ↔
      t ∈ (proceedWithGeneration [DocumentType.faq, DocumentType.email] "S"
        genFailAt1).docs.map GeneratedDoc.type) :=
  ⟨by decide,
   generatingPhaseIsExhaustive [DocumentType.faq, DocumentType.email]
     [DocumentType.email, DocumentType.faq] "S" genFailAt1 (by decide)⟩

/-- C3: For every selection of document types and every order in which the
concurrent per-type calls settle, the settled Promise.all array equals the
per-position call results in issue order, and the resulting type tags are the
original selection in its original order: display order equals selection
order, not completion order. -/
theorem resultsFollowSelectionOrder (selected : List DocumentType)
    (src : String) (gen : Nat → DocumentType → String → GenCall)
    (order : List Nat)
    (hperm : order.Perm (List.range (genResults gen src selected 0).length)) :
    settleAll (genResults gen src selected 0) order =
      (genResults gen src selected 0).map some ∧
    (genResults gen src selected 0).map GenResult.type = selected :=
  ⟨settleAll_of_perm _ _ hperm, genResults_map_type gen src selected 0⟩

theorem resultsFollowSelectionOrder_witness :
    ([1, 0] : List Nat).Perm
      (List.range (genResults genOk "S"
        [DocumentType.releaseNotes, DocumentType.faq] 0).length) ∧
    (settleAll (genResults genOk "S"
        [DocumentType.releaseNotes, DocumentType.faq] 0) [1, 0] =
      (genResults genOk "S"
        [DocumentType.releaseNotes, DocumentType.faq] 0).map some ∧
    (genResults genOk "S"
        [DocumentType.releaseNotes, DocumentType.faq] 0).map GenResult.type =
      [DocumentType.releaseNotes, DocumentType.faq]) :=
  ⟨by decide,
   resultsFollowSelectionOrder [DocumentType.releaseNotes, DocumentType.faq]
     "S" genOk [1, 0] (by decide)⟩

/-- C2: If, among the N generation calls of one batch, the call at position i
fails while every other call succeeds, then the i-th result carries a
non-empty error with an empty content string and its converted document gets
the error placeholder content, every selected type's status still ends
complete (in particular the failing one), every other position's result holds
the content its own call returned with no error, and the batch still
transitions to the review (preview) state. -/
theorem isolatedFailureStillReviews (selected order : List DocumentType)
    (src : String) (gen : Nat → DocumentType → String → GenCall)
    (i : Nat) (msg : String) (hi : i < selected.length)
    (hperm : order.Perm selected)
    (hfail : (gen i selected[i] src).outcome = .error msg)
    (hok : ∀ j, (hj : j < selected.length) → j ≠ i →
      ∃ c, (gen j selected[j] src).outcome = .ok c) :
    (proceedWithGeneration selected src gen).step = .preview ∧
    (∀ t ∈ selected, finalProgress selected order t = some .complete) ∧
    (∃ e, ¬e = "" ∧
      (genResults gen src selected 0)[i]? = some
        { type := selected[i], content := "", error := some e,
          generatedAt := (gen i selected[i] src).generatedAt,
          durationMs := (gen i selected[i] src).durationMs } ∧
      ∃ rest, ((proceedWithGeneration selected src gen).docs[i]?).map
        GeneratedDoc.content = some ("# Error generating " ++ rest ++
          "\n\n" ++ e)) ∧
    (∀ j, (hj : j < selected.length) → j ≠ i →
      ∃ c, (gen j selected[j] src).outcome = .ok c ∧
        (genResults gen src selected 0)[j]? = some
          { type := selected[j], content := c, error := none,
            generatedAt := (gen j selected[j] src).generatedAt,
            durationMs := (gen j selected[j] src).durationMs }) := by
  have hrs : ∀ j, (hj : j < selected.length) →
      (genResults gen src selected 0)[j]? =
        some (settleOne selected[j] (gen j selected[j] src)) := by
    intro j hj
    rw [genResults_getElem?]
    rw [List.getElem?_eq_getElem hj]
    simp
  refine ⟨rfl, ?_, ?_, ?_⟩
  · intro t ht
    rw [finalProgress_eq]
    have : t ∈ order := hperm.mem_iff.mpr ht
    simp [this]
  · have hset : settleOne selected[i] (gen i selected[i] src) =
        { type := selected[i], content := "",
          error := some (if msg = "" then "Generation failed" else msg),
          generatedAt := (gen i selected[i] src).generatedAt,
          durationMs := (gen i selected[i] src).durationMs } := by
      unfold settleOne
      rw [hfail]
    refine ⟨if msg = "" then "Generation failed" else msg, ?_, ?_, ?_⟩
    · by_cases hm : msg = "" <;> simp [hm]
    · rw [hrs i hi, hset]
    · have hdo : (proceedWithGeneration selected src gen).docs[i]? =
          some (toGeneratedDoc (settleOne selected[i] (gen i selected[i] src))) := by
        show ((genResults gen src selected 0).map toGeneratedDoc)[i]? = _
        rw [List.getElem?_map, hrs i hi]
        rfl
      rw [hdo, hset]
      exact ⟨_, rfl⟩
  · intro j hj hne
    obtain ⟨c, hc⟩ := hok j hj hne
    refine ⟨c, hc, ?_⟩
    rw [hrs j hj]
    unfold settleOne
    rw [hc]

theorem isolatedFailureStillReviews_witness :
    (genFailAt1 1 ([DocumentType.releaseNotes, DocumentType.email,
        DocumentType.faq] : List DocumentType)[1] "S").outcome =
      .error "network error" ∧
    ((proceedWithGeneration [DocumentType.releaseNotes, DocumentType.email,
        DocumentType.faq] "S" genFailAt1).step = .preview ∧
    (∀ t ∈ ([DocumentType.releaseNotes, DocumentType.email,
        DocumentType.faq] : List DocumentType),
      finalProgress [DocumentType.releaseNotes, DocumentType.email,
        DocumentType.faq]
        [DocumentType.faq, DocumentType.email, DocumentType.releaseNotes] t =
        some .complete) ∧
    (∃ e, ¬e = "" ∧
      (genResults genFailAt1 "S" [DocumentType.releaseNotes,
        DocumentType.email, DocumentType.faq] 0)[1]? = some
        { type := ([DocumentType.releaseNotes, DocumentType.email,
            DocumentType.faq] : List DocumentType)[1],
          content := "", error := some e,
          generatedAt := (genFailAt1 1 ([DocumentType.releaseNotes,
            DocumentType.email, DocumentType.faq] :
              List DocumentType)[1] "S").generatedAt,
          durationMs := (genFailAt1 1 ([DocumentType.releaseNotes,
            DocumentType.email, DocumentType.faq] :
              List DocumentType)[1] "S").durationMs } ∧
      ∃ rest, ((proceedWithGeneration [DocumentType.releaseNotes,
          DocumentType.email, DocumentType.faq] "S" genFailAt1).docs[1]?).map
        GeneratedDoc.content = some ("# Error generating " ++ rest ++
          "\n\n" ++ e)) ∧
    (∀ j, (hj : j < ([DocumentType.releaseNotes, DocumentType.email,
        DocumentType.faq] : List DocumentType).length) → j ≠ 1 →
      ∃ c, (genFailAt1 j ([DocumentType.releaseNotes, DocumentType.email,
          DocumentType.faq] : List DocumentType)[j] "S").outcome = .ok c ∧
        (genResults genFailAt1 "S" [DocumentType.releaseNotes,
          DocumentType.email, DocumentType.faq] 0)[j]? = some
          { type := ([DocumentType.releaseNotes, DocumentType.email,
              DocumentType.faq] : List DocumentType)[j],
            content := c, error := none,
            generatedAt := (genFailAt1 j ([DocumentType.releaseNotes,
              DocumentType.email, DocumentType.faq] :
                List DocumentType)[j] "S").generatedAt,
            durationMs := (genFailAt1 j ([DocumentType.releaseNotes,
              DocumentType.email, DocumentType.faq] :
                List DocumentType)[j] "S").durationMs })) :=
  ⟨rfl,
   isolatedFailureStillReviews
     [DocumentType.releaseNotes, DocumentType.email, DocumentType.faq]
     [DocumentType.faq, DocumentType.email, DocumentType.releaseNotes]
     "S" genFailAt1 1 "network error" (by decide) (by decide) rfl
     (by
       intro j hj hne
       have hj3 : j < 3 := by simpa using hj
       interval_cases j
       · exact ⟨"generated body", rfl⟩
       · exact absurd rfl hne
       · exact ⟨"generated body", rfl⟩)⟩

/-- C4: If the feature-categorization pass fails, handleGenerate falls back to
the original ingested content unmodified (it becomes the run's retained source
content) and the run still proceeds without error: with clarifying questions
it opens the wizard over exactly those questions, without questions it goes
straight to generation against the original content and reaches the review
step. -/
theorem categorizationFailureFallsBack (combinedContent : String)
    (selected : List DocumentType) (failmsg : String)
    (questions : List String)
    (gen : Nat → DocumentType → String → GenCall) :
    (handleGenerate combinedContent selected (.failure failmsg)
      (.ok questions) gen).sourceContent = combinedContent ∧
    (handleGenerate combinedContent selected (.failure failmsg)
      (.ok questions) gen).error = none ∧
    (questions ≠ [] →
      (handleGenerate combinedContent selected (.failure failmsg)
        (.ok questions) gen).step = .wizard ∧
      (handleGenerate combinedContent selected (.failure failmsg)
        (.ok questions) gen).wizardQuestions =
        questions.map (fun q => ⟨q, ""⟩)) ∧
    (questions = [] →
      (handleGenerate combinedContent selected (.failure failmsg)
        (.ok questions) gen).step = .preview ∧
      (handleGenerate combinedContent selected (.failure failmsg)
        (.ok questions) gen).docs =
        (genResults gen combinedContent selected 0).map toGeneratedDoc) := by
  by_cases hq : questions = []
  · subst hq
    refine ⟨rfl, rfl, fun h => absurd rfl h, fun _ => ⟨rfl, rfl⟩⟩
  · have hlen : questions.length > 0 := by
      cases questions with
      | nil => exact absurd rfl hq
      | cons q qs => simp
    refine ⟨?_, ?_, ?_, fun h => absurd h hq⟩ <;>
      simp [handleGenerate, categorizeFeatures, hlen]

theorem categorizationFailureFallsBack_witness :
    (handleGenerate "original content" [DocumentType.faq]
      (.failure "categorization exploded") (.ok ["What changed?"])
      genOk).sourceContent = "original content" ∧
    (handleGenerate "original content" [DocumentType.faq]
      (.failure "categorization exploded") (.ok ["What changed?"])
      genOk).error = none ∧
    (handleGenerate "original content" [DocumentType.faq]
      (.failure "categorization exploded") (.ok ["What changed?"])
      genOk).step = .wizard ∧
    (handleGenerate "original content" [DocumentType.faq]
      (.failure "categorization exploded") (.ok ["What changed?"])
      genOk).wizardQuestions = [⟨"What changed?", ""⟩] :=
  have h := categorizationFailureFallsBack "original content"
    [DocumentType.faq] "categorization exploded" ["What changed?"] genOk
  have hw := h.2.2.1 (by simp)
  ⟨h.1, h.2.1, hw.1, hw.2⟩

/-- C5: Continuing from the clarifying-questions step passes the retained
source content extended (never overwritten: the result always has the source
content as an initial segment) with an Additional Context section holding
exactly the question/answer pairs whose trimmed answer is non-empty; with no
such pair the content is passed unmodified, and skipping always passes the
retained content unmodified. -/
theorem wizardContinueOnlyExtends (s : String) (qs : List WizardQuestion) :
    handleSkipWizard s = s ∧
    (∃ t, handleWizardContinue s qs = s ++ t) ∧
    (qs.filter (fun q => !(jsTrim q.answer = "")) = [] →
      handleWizardContinue s qs = s) ∧
    (qs.filter (fun q => !(jsTrim q.answer = "")) ≠ [] →
      handleWizardContinue s qs =
        s ++ ("\n\n## Additional Context\n\n" ++
          pairsText (qs.filter (fun q => !(jsTrim q.answer = ""))))) := by
  by_cases h : qs.filter (fun q => !(jsTrim q.answer = "")) = []
  · have hcont : handleWizardContinue s qs = s := by
      unfold handleWizardContinue
      simp [h]
    exact ⟨rfl, ⟨"", by simp [hcont]⟩, fun _ => hcont, fun hne => absurd h hne⟩
  · have hlen : (qs.filter (fun q => !(jsTrim q.answer = ""))).length > 0 := by
      cases hf : qs.filter (fun q => !(jsTrim q.answer = "")) with
      | nil => exact absurd hf h
      | cons a l => simp [hf]
    have hcont : handleWizardContinue s qs =
        s ++ ("\n\n## Additional Context\n\n" ++
          pairsText (qs.filter (fun q => !(jsTrim q.answer = "")))) := by
      unfold handleWizardContinue
      simp only [hlen, if_pos]
      rw [foldl_pairText, String.append_assoc]
    exact ⟨rfl, ⟨_, hcont⟩, fun he => absurd he h, fun _ => hcont⟩

theorem wizardContinueOnlyExtends_witness :
    handleSkipWizard "base" = "base" ∧
    (∃ t, handleWizardContinue "base"
      [⟨"Q1", "  "⟩, ⟨"Q2", "A2"⟩] = "base" ++ t) ∧
    handleWizardContinue "base" [⟨"Q1", "  "⟩, ⟨"Q2", "A2"⟩] =
      "base" ++ ("\n\n## Additional Context\n\n" ++
        pairsText (([⟨"Q1", "  "⟩, ⟨"Q2", "A2"⟩] :
          List WizardQuestion).filter (fun q => !(jsTrim q.answer = "")))) :=
  have h := wizardContinueOnlyExtends "base" [⟨"Q1", "  "⟩, ⟨"Q2", "A2"⟩]
  ⟨h.1, h.2.1, h.2.2.2 (by decide)⟩

/-- C6: Successfully regenerating the document at index i replaces only the
entry at index i, giving it the new content together with a fresh timestamp
and duration while keeping its filename, type and format; every entry at every
other index is unchanged and the list keeps its length. -/
theorem regenerationReplacesOnlyTarget (src : String)
    (docs : List GeneratedDoc) (i : Nat)
    (gen : DocumentType → String → Except String String)
    (now dur : Nat) (doc : GeneratedDoc) (newContent : String)
    (hdoc : docs[i]? = some doc) (hok : gen doc.type src = .ok newContent) :
    (handleRegenerateArtifact src docs i gen now dur).1.length =
      docs.length ∧
    (handleRegenerateArtifact src docs i gen now dur).1[i]? = some
      { filename := doc.filename, content := newContent, type := doc.type,
        format := doc.format, generatedAt := now, durationMs := dur } ∧
    (∀ j, j ≠ i →
      (handleRegenerateArtifact src docs i gen now dur).1[j]? = docs[j]?) ∧
    (handleRegenerateArtifact src docs i gen now dur).2 =
      "Document regenerated successfully!" := by
  have hi : i < docs.length := by
    by_contra hn
    rw [List.getElem?_eq_none (Nat.le_of_not_lt hn)] at hdoc
    exact Option.noConfusion hdoc
  unfold handleRegenerateArtifact
  rw [hdoc]
  dsimp only
  rw [hok]
  refine ⟨by simp, ?_, ?_, rfl⟩
  · simp [List.getElem?_set_self hi]
  · intro j hj
    simp [List.getElem?_set_ne (fun h => hj h.symm)]

theorem regenerationReplacesOnlyTarget_witness :
    ([sampleDoc .faq "A", sampleDoc .email "B"] :
      List GeneratedDoc)[1]? = some (sampleDoc .email "B") ∧
    ((handleRegenerateArtifact "S" [sampleDoc .faq "A", sampleDoc .email "B"]
        1 (fun _ _ => .ok "NEW") 100 5).1.length =
      ([sampleDoc .faq "A", sampleDoc .email "B"] :
        List GeneratedDoc).length ∧
    (handleRegenerateArtifact "S" [sampleDoc .faq "A", sampleDoc .email "B"]
        1 (fun _ _ => .ok "NEW") 100 5).1[1]? = some
      { filename := (sampleDoc .email "B").filename, content := "NEW",
        type := (sampleDoc .email "B").type,
        format := (sampleDoc .email "B").format,
        generatedAt := 100, durationMs := 5 } ∧
    (∀ j, j ≠ 1 →
      (handleRegenerateArtifact "S"
        [sampleDoc .faq "A", sampleDoc .email "B"]
        1 (fun _ _ => .ok "NEW") 100 5).1[j]? =
        ([sampleDoc .faq "A", sampleDoc .email "B"] :
          List GeneratedDoc)[j]?) ∧
    (handleRegenerateArtifact "S" [sampleDoc .faq "A", sampleDoc .email "B"]
        1 (fun _ _ => .ok "NEW") 100 5).2 =
      "Document regenerated successfully!") :=
  ⟨rfl,
   regenerationReplacesOnlyTarget "S"
     [sampleDoc .faq "A", sampleDoc .email "B"] 1 (fun _ _ => .ok "NEW")
     100 5 (sampleDoc .email "B") "NEW" rfl rfl⟩

/-- C10: If regenerating a single document fails, the generated-documents list
is left completely unchanged (the targeted entry keeps its previous content,
timestamp and duration, and nothing is added, removed, or modified); the
failure surfaces only as a transient toast message. -/
theorem regenerationFailureIsNoop (src : String) (docs : List GeneratedDoc)
    (i : Nat) (gen : DocumentType → String → Except String String)
    (now dur : Nat) (doc : GeneratedDoc) (e : String)
    (hdoc : docs[i]? = some doc) (herr : gen doc.type src = .error e) :
    (handleRegenerateArtifact src docs i gen now dur).1 = docs ∧
    (handleRegenerateArtifact src docs i gen now dur).2 =
      "Regeneration failed: " ++ e := by
  unfold handleRegenerateArtifact
  rw [hdoc]
  dsimp only
  rw [herr]
  exact ⟨rfl, rfl⟩

theorem regenerationFailureIsNoop_witness :
    ([sampleDoc .faq "A", sampleDoc .email "B"] :
      List GeneratedDoc)[0]? = some (sampleDoc .faq "A") ∧
    ((handleRegenerateArtifact "S" [sampleDoc .faq "A", sampleDoc .email "B"]
        0 (fun _ _ => .error "network down") 100 5).1 =
      [sampleDoc .faq "A", sampleDoc .email "B"] ∧
    (handleRegenerateArtifact "S" [sampleDoc .faq "A", sampleDoc .email "B"]
        0 (fun _ _ => .error "network down") 100 5).2 =
      "Regeneration failed: " ++ "network down") :=
  ⟨rfl,
   regenerationFailureIsNoop "S" [sampleDoc .faq "A", sampleDoc .email "B"]
     0 (fun _ _ => .error "network down") 100 5 (sampleDoc .faq "A")
     "network down" rfl rfl⟩

/-- C7: The types offered for incremental generation are exactly the
configured document-type list minus the types already present in the
generated-documents list, and generating a non-empty selection of additional
types appends their results (tagged with exactly those types, in order) to the
end of the existing list, leaving every existing entry untouched and reusing
the same retained source content for the new calls. -/
theorem generateMoreContract (docs : List GeneratedDoc)
    (additional : List DocumentType) (src : String)
    (gen : Nat → DocumentType → String → GenCall) :
    (∀ t, t ∈ getAvailableTypes docs ↔
      (t ∈ DOCUMENT_OPTIONS.map DocumentOption.id ∧
        t ∉ docs.map GeneratedDoc.type)) ∧
    (additional ≠ [] →
      handleGenerateAdditional docs additional src gen =
        docs ++ (genResults gen src additional 0).map toGeneratedDoc ∧
      ((genResults gen src additional 0).map toGeneratedDoc).map
        GeneratedDoc.type = additional) ∧
    (∀ j, j < docs.length →
      (handleGenerateAdditional docs additional src gen)[j]? = docs[j]?) := by
  have htypes : ((genResults gen src additional 0).map toGeneratedDoc).map
      GeneratedDoc.type = additional := by
    rw [List.map_map]
    have hc : GeneratedDoc.type ∘ toGeneratedDoc = GenResult.type :=
      funext toGeneratedDoc_type
    rw [hc, genResults_map_type]
  refine ⟨?_, ?_, ?_⟩
  · intro t
    unfold getAvailableTypes getAlreadyGeneratedTypes
    rw [List.mem_filter]
    simp [List.elem_iff]
  · intro hne
    have hlen : ¬additional.length = 0 := by
      simpa [List.length_eq_zero] using hne
    exact ⟨by unfold handleGenerateAdditional; rw [if_neg hlen], htypes⟩
  · intro j hj
    unfold handleGenerateAdditional
    by_cases hlen : additional.length = 0
    · rw [if_pos hlen]
    · rw [if_neg hlen, List.getElem?_append_left hj]

theorem generateMoreContract_witness :
    (DocumentType.email ∈ getAvailableTypes [sampleDoc .faq "X"] ↔
      (DocumentType.email ∈ DOCUMENT_OPTIONS.map DocumentOption.id ∧
        DocumentType.email ∉
          ([sampleDoc .faq "X"] : List GeneratedDoc).map
            GeneratedDoc.type)) ∧
    handleGenerateAdditional [sampleDoc .faq "X"] [DocumentType.email] "S"
        genOk =
      [sampleDoc .faq "X"] ++
        (genResults genOk "S" [DocumentType.email] 0).map toGeneratedDoc ∧
    ((genResults genOk "S" [DocumentType.email] 0).map toGeneratedDoc).map
      GeneratedDoc.type = [DocumentType.email] ∧
    (handleGenerateAdditional [sampleDoc .faq "X"] [DocumentType.email] "S"
        genOk)[0]? = ([sampleDoc .faq "X"] : List GeneratedDoc)[0]? :=
  have h := generateMoreContract [sampleDoc .faq "X"] [DocumentType.email]
    "S" genOk
  have ha := h.2.1 (by simp)
  ⟨h.1 DocumentType.email, ha.1, ha.2, h.2.2 0 (by simp [sampleDoc])⟩

/-- C8: When the API credential is absent (or empty) in the environment, every
generation-client operation settles with the configuration error without
issuing any network request; and with a credential present, a response whose
body contains no content (absent or empty) is treated as a generation failure
for that one call, each entry of a multi-document batch being determined
solely by its own call's response. -/
theorem missingCredentialFailsFast :
    (∀ t net, generateTrainingDocument t none net =
        ⟨.error invalidKeyMsg, false⟩ ∧
      generateTrainingDocument t (some "") net =
        ⟨.error invalidKeyMsg, false⟩) ∧
    (∀ net, enhanceTextWithAI none net = ⟨.error invalidKeyMsg, false⟩ ∧
      enhanceTextWithAI (some "") net = ⟨.error invalidKeyMsg, false⟩) ∧
    (∀ net, cleanupContentWithAI none net = ⟨.error invalidKeyMsg, false⟩ ∧
      cleanupContentWithAI (some "") net = ⟨.error invalidKeyMsg, false⟩) ∧
    (∀ t k, ¬k = "" →
      (generateTrainingDocument t (some k) (.success none)).result =
        .error ("Failed to generate " ++ t.idStr ++
          ": No content generated from OpenAI") ∧
      (generateTrainingDocument t (some k) (.success (some ""))).result =
        .error ("Failed to generate " ++ t.idStr ++
          ": No content generated from OpenAI")) ∧
    (∀ (env : Option String) (nets : Nat → NetResponse)
        (docTypes : List DocumentType) (j : Nat),
      (hj : j < docTypes.length) →
      (generateMultipleDocuments env nets docTypes 0)[j]? =
        some (settleMultiDoc docTypes[j] env (nets j))) := by
  have hkey : ∀ k, ¬k = "" → getApiKey (some k) = .ok k := by
    intro k hk
    unfold getApiKey
    dsimp only
    rw [if_neg hk]
  refine ⟨fun t net => ⟨rfl, rfl⟩, fun net => ⟨rfl, rfl⟩,
    fun net => ⟨rfl, rfl⟩, ?_, ?_⟩
  · intro t k hk
    constructor <;>
      (unfold generateTrainingDocument; rw [hkey k hk]; try rfl)
  · intro env nets docTypes j hj
    rw [generateMultipleDocuments_getElem?, List.getElem?_eq_getElem hj]
    simp

theorem missingCredentialFailsFast_witness :
    generateTrainingDocument .faq none (.success (some "body")) =
      ⟨.error invalidKeyMsg, false⟩ ∧
    enhanceTextWithAI none (.success (some "body")) =
      ⟨.error invalidKeyMsg, false⟩ ∧
    cleanupContentWithAI none (.success (some "body")) =
      ⟨.error invalidKeyMsg, false⟩ ∧
    (generateTrainingDocument .faq (some "sk-key") (.success none)).result =
      .error ("Failed to generate " ++ DocumentType.faq.idStr ++
        ": No content generated from OpenAI") ∧
    (generateMultipleDocuments (some "sk-key") (fun _ => .success none)
        [DocumentType.faq] 0)[0]? =
      some (settleMultiDoc ([DocumentType.faq] :
        List DocumentType)[0] (some "sk-key") (.success none)) :=
  have h := missingCredentialFailsFast
  ⟨(h.1 .faq (.success (some "body"))).1,
   (h.2.1 (.success (some "body"))).1,
   (h.2.2.1 (.success (some "body"))).1,
   (h.2.2.2.1 .faq "sk-key" (by decide)).1,
   h.2.2.2.2 (some "sk-key") (fun _ => .success none) [DocumentType.faq] 0
     (by decide)⟩

theorem processFile_filename (f : UploadedFile) :
    (processFile f).filename = f.name := by
  simp only [processFile]
  split <;> rfl

/-- C9: Batch file processing produces one combined string in which each file
contributes a segment framed by an `=== filename ===` header (joined by the
batch delimiter), so each file affects only its own segment and the operation
is total; and a read failure on a text-classified file yields the error-stub
string for that file. -/
theorem ingestionFramesPerFile (files : List UploadedFile) :
    (processFiles files).1 = String.intercalate "\n---\n\n"
      (files.map (fun f =>
        "=== " ++ f.name ++ " ===\n\n" ++ (processFile f).content ++
          "\n\n")) ∧
    (∀ f e, f.readResult = .error e →
      (containsSubstr (fileTypeOf f) "text" ||
        f.name.endsWith ".txt") = true →
      (processFile f).content = "Error reading file: " ++ f.name) := by
  constructor
  · show String.intercalate "\n---\n\n"
      ((files.map processFile).map (fun fc =>
        "=== " ++ fc.filename ++ " ===\n\n" ++ fc.content ++ "\n\n")) = _
    rw [List.map_map]
    simp only [Function.comp_def, processFile_filename]
  · intro f e hread hcond
    simp only [processFile]
    rw [hcond, if_pos rfl]
    dsimp only [readTextFile]
    rw [hread]

theorem ingestionFramesPerFile_witness :
    (processFiles [sampleFile]).1 = String.intercalate "\n---\n\n"
      (([sampleFile] : List UploadedFile).map (fun f =>
        "=== " ++ f.name ++ " ===\n\n" ++ (processFile f).content ++
          "\n\n")) ∧
    (processFile sampleFile).content =
      "Error reading file: " ++ sampleFile.name :=
  have h := ingestionFramesPerFile [sampleFile]
  ⟨h.1, h.2 sampleFile "boom" rfl (by decide)⟩
